import Mathlib

/-!
Shallow embedding of the orbit-server work-item backend.

Embedded components (translated from the JavaScript source):
* the task lifecycle transition table and the `/move` route handler
  (`src/routes/task.js`);
* the permission gates (`src/middleware/permission.js`);
* the requirement status derivation `syncRequirementStatus`
  (`src/routes/task.js`);
* the client portal decision handler `/tasks/respond` (`src/routes/user.js`);
* the principal resolver `resolveEntity` and the session guard
  `authenticate` (`src/middleware/auth.js`).

Mongoose documents become Lean structures; ObjectIds become `Nat`;
JavaScript strings stay `String`; `Date` values become `Nat` epochs.
Route handlers become pure functions from the fetched document plus the
request context to the updated document plus an HTTP-outcome value; an
early `return res.status(...)` before any mutation is embedded as
returning the input document unchanged together with the error outcome.
-/

namespace Orbit

/-- Task lifecycle statuses (`STATUSES` in `src/models/task.model.js`). -/
inductive TaskStatus where
  | TODO
  | DOING
  | READY_FOR_REVIEW
  | SENT_TO_CLIENT
  | REVISION
  | DONE
deriving DecidableEq, Repr

/-- Requirement statuses (`REQ_STATUSES` in `src/models/requirement.model.js`). -/
inductive ReqStatus where
  | OPEN
  | IN_PROGRESS
  | COMPLETED
  | CLOSED
deriving DecidableEq, Repr

/-- String form of a task status, as stored in the database enum. -/
def statusStr : TaskStatus → String
  | .TODO => "TODO"
  | .DOING => "DOING"
  | .READY_FOR_REVIEW => "READY_FOR_REVIEW"
  | .SENT_TO_CLIENT => "SENT_TO_CLIENT"
  | .REVISION => "REVISION"
  | .DONE => "DONE"

/-- One entry of a task history ledger (`history` subdocument in
`src/models/task.model.js`).  `from`, `by` and `at` are Lean keywords, so
the fields carry a trailing underscore. -/
structure HistoryEntry where
  from_ : TaskStatus
  to_ : TaskStatus
  by_ : Nat
  byName : String
  note : String
  at_ : Nat
deriving DecidableEq, Repr

/-- A work item document (`src/models/task.model.js`), restricted to the
fields the embedded handlers read or write. -/
structure Task where
  organizationId : Nat
  clientId : Nat
  title : String
  status : TaskStatus
  assignedTo : List Nat
  createdBy : Nat
  history : List HistoryEntry
deriving DecidableEq, Repr

/-- The request-scoped identity `req.user` built by the session guard. -/
structure UserCtx where
  id : Nat
  organizationId : Nat
  role : String
  permissions : List String
deriving DecidableEq, Repr

/-- One row of the transition table (`TRANSITIONS` in `src/routes/task.js`):
target status, optional gating permission, display label. -/
structure Transition where
  to_ : TaskStatus
  permission : Option String
  label : String
deriving DecidableEq, Repr

/-- The transition table `TRANSITIONS` of `src/routes/task.js`. -/
def TRANSITIONS : TaskStatus → List Transition
  | .TODO => [⟨.DOING, none, "Start"⟩]
  | .DOING => [⟨.READY_FOR_REVIEW, none, "Submit for Review"⟩]
  | .READY_FOR_REVIEW =>
      [⟨.SENT_TO_CLIENT, some "TASK_SEND_TO_CLIENT", "Send to Client"⟩,
       ⟨.REVISION, some "TASK_REVIEW", "Request Changes"⟩]
  | .SENT_TO_CLIENT =>
      [⟨.DONE, some "TASK_CLIENT_DECISION", "Client Approved"⟩,
       ⟨.REVISION, some "TASK_CLIENT_DECISION", "Client Rejected"⟩]
  | .REVISION => [⟨.DOING, none, "Start Rework"⟩]
  | .DONE => []

/-- The enumeration of legal targets used in the rejection message:
`allowed.map((t) => t.to).join(", ") || "none (terminal)"`. -/
def allowedStr (s : TaskStatus) : String :=
  let j := String.intercalate ", " ((TRANSITIONS s).map (fun t => statusStr t.to_))
  if j = "" then "none (terminal)" else j

/-- HTTP outcome of the `/move` handler. -/
inductive MoveResp where
  | notFound (msg : String)
  | badRequest (msg : String)
  | forbidden (msg : String)
  | ok (msg : String)
deriving DecidableEq, Repr

/-- Whether a move outcome is the success case. -/
def MoveResp.isOk : MoveResp → Bool
  | .ok _ => true
  | _ => false

/-- `note?.trim() || ""` applied to the optional note of a move request. -/
def noteOrEmpty : Option String → String
  | some s => s.trim
  | none => ""

/-- The "Apply transition" block of the `/move` handler: set the new
status and append the single history record capturing the pre-transition
status, the requested target, the actor, the resolved actor name, the
optional note and the timestamp. -/
def applyMoveTask (task : Task) (user : UserCtx) (targetStatus : TaskStatus)
    (note : Option String) (actorName : String) (now : Nat) :
    Task × MoveResp :=
  let fromStatus := task.status
  ({ task with
      status := targetStatus,
      history := task.history ++
        [⟨fromStatus, targetStatus, user.id, actorName,
          noteOrEmpty note, now⟩] },
   .ok ("Task moved to " ++ statusStr targetStatus))

/-- The `/move` route handler of `src/routes/task.js` after the task fetch:
the `findOne({_id, organizationId})` filter is embedded as the
organization check, and the resolved actor display name and the current
time are passed in as arguments.  Returns the (possibly updated) task
document together with the HTTP outcome. -/
def moveTask (task : Task) (user : UserCtx) (targetStatus : TaskStatus)
    (note : Option String) (actorName : String) (now : Nat) :
    Task × MoveResp :=
  if task.organizationId ≠ user.organizationId then
    (task, .notFound "Task not found")
  else
    match (TRANSITIONS task.status).find? (fun t => t.to_ == targetStatus) with
    | none =>
        (task, .badRequest ("Cannot move from " ++ statusStr task.status ++
          " to " ++ statusStr targetStatus ++ ". Allowed: " ++
          allowedStr task.status))
    | some transition =>
        match transition.permission with
        | some p =>
            if user.role == "OWNER" || user.permissions.contains p then
              applyMoveTask task user targetStatus note actorName now
            else
              (task, .forbidden ("You need the " ++ p ++
                " permission for this action"))
        | none =>
            if user.role == "OWNER" ||
                user.permissions.contains "TASK_VIEW_ALL" then
              applyMoveTask task user targetStatus note actorName now
            else if !(user.permissions.contains "TASK_MOVE_OWN") ||
                (!(task.assignedTo.contains user.id) &&
                  !(task.createdBy == user.id)) then
              (task, .forbidden "You can only update tasks assigned to you")
            else applyMoveTask task user targetStatus note actorName now

/-- Outcome of a permission-gate middleware. -/
inductive GateResult where
  | unauthenticated (msg : String)
  | forbidden (msg : String)
  | allowed
deriving DecidableEq, Repr

/-- `requirePermission(...required)` of `src/middleware/permission.js`:
any-of gate over the resolved permission set, with owner bypass. -/
def requirePermission (required : List String) (u : Option UserCtx) :
    GateResult :=
  match u with
  | none => .unauthenticated "Authentication required"
  | some user =>
      if user.role == "OWNER" then .allowed
      else if required.any (fun p => user.permissions.contains p) then .allowed
      else .forbidden "You do not have permission to perform this action"

/-- `requireAllPermissions(...required)` of `src/middleware/permission.js`:
all-of gate over the resolved permission set, with owner bypass. -/
def requireAllPermissions (required : List String) (u : Option UserCtx) :
    GateResult :=
  match u with
  | none => .unauthenticated "Authentication required"
  | some user =>
      if user.role == "OWNER" then .allowed
      else if required.all (fun p => user.permissions.contains p) then .allowed
      else .forbidden "You do not have permission to perform this action"

/-- A requirement document (`src/models/requirement.model.js`), restricted
to the fields the sync engine touches plus representative other fields. -/
structure Requirement where
  organizationId : Nat
  clientId : Nat
  title : String
  priority : String
  status : ReqStatus
  linkedTaskIds : List Nat
  comments : List String
deriving DecidableEq, Repr

/-- The in-flight test of `syncRequirementStatus`:
`["DOING", "READY_FOR_REVIEW", "SENT_TO_CLIENT", "REVISION"].includes(t.status)`. -/
def inFlight (s : TaskStatus) : Bool :=
  s == .DOING || s == .READY_FOR_REVIEW || s == .SENT_TO_CLIENT ||
    s == .REVISION

/-- The status derivation of `syncRequirementStatus` in
`src/routes/task.js`, on the current requirement status and the statuses
of its linked tasks as loaded by `Task.find({_id: {$in:
req.linkedTaskIds}})` (linked ids with no stored task are dropped by the
query).  Returns the derived status and whether a write occurs. -/
def syncCore (rs : ReqStatus) (linked : List TaskStatus) : ReqStatus × Bool :=
  if (!linked.isEmpty && linked.all (fun t => t == .DONE)) &&
      !(rs == .COMPLETED) then (.COMPLETED, true)
  else if linked.any inFlight && rs == .OPEN then (.IN_PROGRESS, true)
  else if linked.any inFlight && rs == .COMPLETED then (.IN_PROGRESS, true)
  else (rs, false)

/-- The per-requirement body of `syncRequirementStatus`, lifted to the
requirement document: CLOSED requirements are skipped before any task
load, otherwise the derived status is written back.  Returns the
(possibly updated) requirement and whether a `save()` write occurred. -/
def syncRequirement (r : Requirement) (tasks : Nat → Option TaskStatus) :
    Requirement × Bool :=
  if r.status = .CLOSED then (r, false)
  else
    let c := syncCore r.status (r.linkedTaskIds.filterMap tasks)
    ({ r with status := c.1 }, c.2)

/-- `syncRequirementStatus(taskId, newTaskStatus)` of `src/routes/task.js`
over the store: every requirement whose `linkedTaskIds` contains the task
is passed through `syncRequirement`.  (The `newTaskStatus` argument is
unused in the source body, which re-reads all linked task statuses.) -/
def syncRequirementStatus (taskId : Nat) (reqs : List Requirement)
    (tasks : Nat → Option TaskStatus) : List Requirement :=
  reqs.map (fun r =>
    if r.linkedTaskIds.contains taskId then (syncRequirement r tasks).1 else r)

/-- The status the spec text assigns to a synced requirement, written from
the claim wording: CLOSED is frozen; at least one linked item with all
linked items DONE derives COMPLETED; some linked item in flight while the
requirement is OPEN or COMPLETED derives IN_PROGRESS; otherwise the
status is unchanged.  Used to compare the source function against the
specified derivation. -/
def specSyncStatus (rs : ReqStatus) (linked : List TaskStatus) : ReqStatus :=
  if rs = .CLOSED then rs
  else if !linked.isEmpty && linked.all (fun t => t == .DONE) then .COMPLETED
  else if linked.any inFlight && (rs == .OPEN || rs == .COMPLETED) then
    .IN_PROGRESS
  else rs

/-- HTTP outcome of the client portal `/tasks/respond` handler. -/
inductive RespondResp where
  | badRequest (msg : String)
  | notFound (msg : String)
  | ok (msg : String)
deriving DecidableEq, Repr

/-- The client portal request identity: `{ organizationId, clientId, name }`
destructured from `req.user` in `src/routes/user.js`. -/
structure ClientCtx where
  organizationId : Nat
  clientId : Nat
  name : Option String
deriving DecidableEq, Repr

/-- `note?.trim()` of the portal handler, kept optional so that the
JavaScript falsiness test (`undefined` or empty trim) is expressible. -/
def noteTrim (n : Option String) : Option String := n.map String.trim

/-- JavaScript falsiness of `note?.trim()`: absent note or all-whitespace. -/
def noteFalsy (n : Option String) : Bool :=
  match noteTrim n with
  | none => true
  | some s => s == ""

/-- The `/tasks/respond` handler of `src/routes/user.js` after the task
fetch; the `findOne({_id, organizationId, clientId})` filter is embedded
as the two ownership checks.  Returns the (possibly updated) task and the
HTTP outcome. -/
def respondToTask (task : Task) (user : ClientCtx) (decision : String)
    (note : Option String) (now : Nat) : Task × RespondResp :=
  if ¬(decision = "DONE" ∨ decision = "REVISION") then
    (task, .badRequest "Decision must be DONE or REVISION")
  else if decision = "REVISION" && noteFalsy note then
    (task, .badRequest "A note is required when requesting changes")
  else if task.organizationId ≠ user.organizationId ∨
      task.clientId ≠ user.clientId then
    (task, .notFound "Task not found")
  else if task.status ≠ .SENT_TO_CLIENT then
    (task, .badRequest "This task is not awaiting your review")
  else
    let newStatus : TaskStatus := if decision = "DONE" then .DONE else .REVISION
    let byName :=
      match user.name with
      | some s => if s = "" then "Client" else s
      | none => "Client"
    let noteStr :=
      match noteTrim note with
      | some s =>
          if s = "" then
            (if decision = "DONE" then "Client approved"
             else "Client requested changes")
          else s
      | none =>
          if decision = "DONE" then "Client approved"
          else "Client requested changes"
    ({ task with
        status := newStatus,
        history := task.history ++
          [⟨.SENT_TO_CLIENT, newStatus, user.clientId, byName, noteStr, now⟩] },
     .ok (if decision = "DONE" then "Task approved" else "Changes requested"))

/-- A decoded JWT body: the claims the middleware reads (`decoded.id`,
`decoded.userType`). -/
structure Decoded where
  id : Nat
  userType : Option String
deriving DecidableEq, Repr

/-- A well-formed signed token.  `key` is the key pair that signed it,
`exp` its expiry epoch, `nonce` distinguishes distinct issued values so
that string comparison of stored versus presented tokens is expressible. -/
structure Tok where
  id : Nat
  userType : Option String
  key : Nat
  exp : Nat
  nonce : Nat
deriving DecidableEq, Repr

/-- A principal record as the session guard reads it (Organization, User
or Client document): key pair, stored refresh token and its expiry, and
the remembered flag.  Key pairs are modelled by a shared identifier, so a
signature made with `privateKey` verifies against the matching
`publicKey` exactly when the identifiers agree. -/
structure Entity where
  publicKey : Option Nat
  privateKey : Option Nat
  refreshToken : Option Tok
  refreshTokenExpires : Option Nat
  rememberMe : Bool
deriving DecidableEq, Repr

/-- The document store as seen by the principal resolver: the three
principal collections, keyed by identifier. -/
structure Env where
  orgs : Nat → Option Entity
  users : Nat → Option Entity
  clients : Nat → Option Entity

/-- `resolveEntity(decoded)` of `src/middleware/auth.js`: explicit
`userType` dispatch, with the legacy fallback trying Organization first,
then User.  The source never queries the Client collection. -/
def resolveEntity (d : Decoded) (env : Env) : Option (Entity × String) :=
  if d.userType = some "user" then
    (env.users d.id).map (fun u => (u, "user"))
  else if d.userType = some "organization" then
    (env.orgs d.id).map (fun o => (o, "organization"))
  else
    match env.orgs d.id with
    | some o => some (o, "organization")
    | none =>
        match env.users d.id with
        | some u => some (u, "user")
        | none => none

/-- `jwt.verify(token, publicKey)`: succeeds when the token was signed by
the matching key pair and has not expired. -/
def verifyTok (t : Tok) (pub : Nat) (now : Nat) : Bool :=
  t.key == pub && now < t.exp

/-- `issueTokens(privateKey, payload, rememberMe)` of `src/lib/auth.js`:
a fresh access/refresh pair signed with the same private key; refresh
lifetime 7 days with `rememberMe`, otherwise 2 hours.  `fresh` supplies
the nonces making the new token values distinct. -/
def issueTokensM (priv : Nat) (payloadId : Nat) (ty : Option String)
    (rememberMe : Bool) (now fresh : Nat) : Tok × Tok × Nat :=
  let refreshExpires :=
    if rememberMe then now + 7 * 24 * 60 * 60 * 1000
    else now + 2 * 60 * 60 * 1000
  (⟨payloadId, ty, priv, now + 15 * 60 * 1000, fresh⟩,
   ⟨payloadId, ty, priv, refreshExpires, fresh + 1⟩,
   refreshExpires)

/-- Result of the session guard, one constructor per `res.status(401)`
branch of `authenticate` in `src/middleware/auth.js` plus the two success
paths. -/
inductive AuthResult where
  | sessionInvalidated
  | noValidTokens
  | userNotFound
  | refreshExpired
  | authFailed
  | okAccess (ty : String) (e : Entity)
  | okRefresh (ty : String) (e : Entity)
deriving DecidableEq, Repr

/-- What the guard did to the response: the outcome, whether it cleared
the auth cookies, and any freshly set access/refresh cookie pair. -/
structure AuthOut where
  result : AuthResult
  cleared : Bool
  setCookies : Option (Tok × Tok)
deriving DecidableEq, Repr

/-- The session guard `authenticate` of `src/middleware/auth.js`.
Step 1 tries the access token: a failure of resolution, a missing public
key or a `jwt.verify` exception all fall through to the refresh path.
Step 2 rejects when no refresh token is present, then resolves, verifies,
compares the presented refresh token with the stored one and its expiry,
and on success rotates the token pair. -/
def authenticate (env : Env) (accessToken refreshToken : Option Tok)
    (now fresh : Nat) : AuthOut :=
  let step1 : Option AuthOut :=
    match accessToken with
    | none => none
    | some at_ =>
        match resolveEntity ⟨at_.id, at_.userType⟩ env with
        | none => none
        | some (e, ty) =>
            match e.publicKey with
            | none => none
            | some pub =>
                if verifyTok at_ pub now then
                  match refreshToken with
                  | some rt =>
                      if e.refreshToken ≠ some rt then
                        some ⟨.sessionInvalidated, true, none⟩
                      else some ⟨.okAccess ty e, false, none⟩
                  | none => some ⟨.okAccess ty e, false, none⟩
                else none
  match step1 with
  | some out => out
  | none =>
      match refreshToken with
      | none => ⟨.noValidTokens, true, none⟩
      | some rt =>
          match resolveEntity ⟨rt.id, rt.userType⟩ env with
          | none => ⟨.userNotFound, true, none⟩
          | some (e, ty) =>
              match e.publicKey, e.privateKey with
              | some pub, some priv =>
                  if verifyTok rt pub now then
                    if e.refreshToken ≠ some rt then ⟨.refreshExpired, true, none⟩
                    else
                      match e.refreshTokenExpires with
                      | none => ⟨.refreshExpired, true, none⟩
                      | some exp =>
                          if exp < now then ⟨.refreshExpired, true, none⟩
                          else
                            let issued := issueTokensM priv rt.id (some ty)
                              e.rememberMe now fresh
                            ⟨.okRefresh ty
                              { e with
                                  refreshToken := some issued.2.1,
                                  refreshTokenExpires := some issued.2.2 },
                              false, some (issued.1, issued.2.1)⟩
                  else ⟨.authFailed, true, none⟩
              | _, _ => ⟨.userNotFound, true, none⟩

/-! ## Lemmas about the requirement sync derivation -/

lemma allDone_no_inFlight {l : List TaskStatus}
    (h : l.all (fun t => t == TaskStatus.DONE) = true) :
    l.any inFlight = false := by
  rw [List.any_eq_false]
  intro x hx
  have hx2 := List.all_eq_true.mp h x hx
  rw [beq_iff_eq] at hx2
  subst hx2
  simp [inFlight]

lemma syncCore_fixpoint (rs : ReqStatus) (l : List TaskStatus)
    (h : rs ≠ .CLOSED) :
    syncCore (syncCore rs l).1 l = ((syncCore rs l).1, false) ∧
      (syncCore rs l).1 ≠ .CLOSED := by
  unfold syncCore
  by_cases hA : (!l.isEmpty && l.all (fun t => t == TaskStatus.DONE)) = true
  · have h2 : l.all (fun t => t == TaskStatus.DONE) = true := by
      rw [Bool.and_eq_true] at hA
      exact hA.2
    have hB := allDone_no_inFlight h2
    cases rs <;> simp [hA, hB]
  · rw [Bool.not_eq_true] at hA
    by_cases hB : l.any inFlight = true
    · cases rs <;> simp [hA, hB]
      exact h rfl
    · rw [Bool.not_eq_true] at hB
      cases rs <;> simp [hA, hB]
      exact h rfl

lemma syncRequirement_linkedTaskIds (r : Requirement)
    (tasks : Nat → Option TaskStatus) :
    (syncRequirement r tasks).1.linkedTaskIds = r.linkedTaskIds := by
  unfold syncRequirement
  by_cases h : r.status = .CLOSED <;> simp [h]

lemma syncRequirement_fixpoint (r : Requirement)
    (tasks : Nat → Option TaskStatus) :
    syncRequirement (syncRequirement r tasks).1 tasks =
      ((syncRequirement r tasks).1, false) := by
  by_cases hc : r.status = .CLOSED
  · simp [syncRequirement, hc]
  · obtain ⟨hfix, hnc⟩ :=
      syncCore_fixpoint r.status (r.linkedTaskIds.filterMap tasks) hc
    simp [syncRequirement, hc, hnc, hfix]

lemma sync_all_done_excl (l : List TaskStatus) :
    (!l.isEmpty && l.all (fun t => t == TaskStatus.DONE)) = true →
    l.any inFlight = false := by
  intro h
  rw [Bool.and_eq_true] at h
  exact allDone_no_inFlight h.2

/-- Claim C4: for a requirement that is not CLOSED, sync derives COMPLETED
exactly when there is at least one linked work item and all linked items
are DONE; it derives IN_PROGRESS when some linked item is in flight and
the requirement is OPEN or COMPLETED (the regression case included);
otherwise the status is left unchanged; a requirement without linked
items never auto-completes and a CLOSED requirement is never modified.
Stated as: the source derivation equals the status function written from
the spec text. -/
theorem syncRequirement_matches_spec (r : Requirement)
    (tasks : Nat → Option TaskStatus) :
    (syncRequirement r tasks).1.status =
      specSyncStatus r.status (r.linkedTaskIds.filterMap tasks) := by
  unfold syncRequirement specSyncStatus syncCore
  have hx := sync_all_done_excl (r.linkedTaskIds.filterMap tasks)
  revert hx
  generalize (!(r.linkedTaskIds.filterMap tasks).isEmpty &&
      (r.linkedTaskIds.filterMap tasks).all
        (fun t => t == TaskStatus.DONE)) = A
  generalize (r.linkedTaskIds.filterMap tasks).any inFlight = B
  intro hx
  cases A
  · cases B <;> cases hrs : r.status <;> simp [hrs]
  · have hB := hx rfl
    subst hB
    cases hrs : r.status <;> simp [hrs]

/-- Claim C7: the sync engine is idempotent: re-running it over the store
leaves every requirement exactly as the first run left it, and the second
per-requirement run performs no write. -/
theorem sync_idempotent (taskId : Nat) (reqs : List Requirement)
    (tasks : Nat → Option TaskStatus) :
    syncRequirementStatus taskId (syncRequirementStatus taskId reqs tasks)
        tasks = syncRequirementStatus taskId reqs tasks ∧
    ∀ r : Requirement,
      syncRequirement (syncRequirement r tasks).1 tasks =
        ((syncRequirement r tasks).1, false) := by
  refine ⟨?_, fun r => syncRequirement_fixpoint r tasks⟩
  have hpt : ∀ a : Requirement,
      (if (if a.linkedTaskIds.contains taskId then
            (syncRequirement a tasks).1 else a).linkedTaskIds.contains taskId
        then (syncRequirement (if a.linkedTaskIds.contains taskId then
            (syncRequirement a tasks).1 else a) tasks).1
        else (if a.linkedTaskIds.contains taskId then
            (syncRequirement a tasks).1 else a)) =
      (if a.linkedTaskIds.contains taskId then
        (syncRequirement a tasks).1 else a) := by
    intro a
    by_cases hcnt : a.linkedTaskIds.contains taskId = true
    · rw [if_pos hcnt]
      have hl : (syncRequirement a tasks).1.linkedTaskIds.contains
          taskId = true := by
        rw [syncRequirement_linkedTaskIds]
        exact hcnt
      rw [if_pos hl, syncRequirement_fixpoint]
    · rw [if_neg hcnt, if_neg hcnt]
  unfold syncRequirementStatus
  induction reqs with
  | nil => rfl
  | cons a l ih =>
      simp only [List.map_cons, List.cons.injEq]
      exact ⟨hpt a, ih⟩

/-- Claim C10: the sync engine writes only COMPLETED or IN_PROGRESS, never
touches a CLOSED requirement, changes no field other than status, and
when it does not write it returns the requirement unchanged. -/
theorem sync_write_invariant (r : Requirement)
    (tasks : Nat → Option TaskStatus) :
    ((syncRequirement r tasks).2 = true →
      (syncRequirement r tasks).1.status = .COMPLETED ∨
        (syncRequirement r tasks).1.status = .IN_PROGRESS) ∧
    (r.status = .CLOSED → syncRequirement r tasks = (r, false)) ∧
    ((syncRequirement r tasks).2 = false → (syncRequirement r tasks).1 = r) ∧
    (syncRequirement r tasks).1.organizationId = r.organizationId ∧
    (syncRequirement r tasks).1.clientId = r.clientId ∧
    (syncRequirement r tasks).1.title = r.title ∧
    (syncRequirement r tasks).1.priority = r.priority ∧
    (syncRequirement r tasks).1.linkedTaskIds = r.linkedTaskIds ∧
    (syncRequirement r tasks).1.comments = r.comments := by
  unfold syncRequirement syncCore
  generalize (!(r.linkedTaskIds.filterMap tasks).isEmpty &&
      (r.linkedTaskIds.filterMap tasks).all
        (fun t => t == TaskStatus.DONE)) = A
  generalize (r.linkedTaskIds.filterMap tasks).any inFlight = B
  cases A <;> cases B <;> cases hrs : r.status <;>
    first
      | (simp [hrs]; done)
      | (simp [hrs]; rw [← hrs])

/-- Witness for claim C10 at a concrete CLOSED requirement with a DONE
linked task: sync leaves it untouched and performs no write. -/
theorem sync_write_invariant_witness :
    syncRequirement ⟨1, 2, "r", "HIGH", .CLOSED, [7], []⟩
      (fun n => if n = 7 then some .DONE else none) =
      (⟨1, 2, "r", "HIGH", .CLOSED, [7], []⟩, false) :=
  (sync_write_invariant ⟨1, 2, "r", "HIGH", .CLOSED, [7], []⟩
    (fun n => if n = 7 then some .DONE else none)).2.1 rfl

/-! ## Theorems about the move handler and the permission gates -/

lemma applyMoveTask_isOk (task : Task) (user : UserCtx)
    (targetStatus : TaskStatus) (note : Option String) (actorName : String)
    (now : Nat) :
    ((applyMoveTask task user targetStatus note actorName now).2).isOk =
      true := rfl

/-- Claim C1: when the transition table for the current status has no
entry whose target equals the requested status, the move rejects with
the InvalidTransition message enumerating the legal targets (phrased
"none (terminal)" for the terminal DONE status), and the task document
— status and history included — is returned unchanged. -/
theorem move_invalid_transition_rejected (task : Task) (user : UserCtx)
    (targetStatus : TaskStatus) (note : Option String) (actorName : String)
    (now : Nat)
    (horg : task.organizationId = user.organizationId)
    (habs : ∀ tr ∈ TRANSITIONS task.status, tr.to_ ≠ targetStatus) :
    moveTask task user targetStatus note actorName now =
      (task, .badRequest ("Cannot move from " ++ statusStr task.status ++
        " to " ++ statusStr targetStatus ++ ". Allowed: " ++
        allowedStr task.status)) ∧
    (task.status = .DONE → allowedStr task.status = "none (terminal)") := by
  have hfind : (TRANSITIONS task.status).find?
      (fun t => t.to_ == targetStatus) = none := by
    rw [List.find?_eq_none]
    intro x hx
    simpa using habs x hx
  constructor
  · simp [moveTask, horg, hfind]
  · intro hdone
    rw [hdone]
    rfl

/-- Witness for claim C1: a DONE task rejects a move to TODO with the
terminal phrasing and stays untouched. -/
theorem move_invalid_transition_rejected_witness :
    moveTask ⟨1, 2, "t", .DONE, [5], 6, []⟩ ⟨6, 1, "MEMBER", []⟩ .TODO
        none "Bob" 99 =
      (⟨1, 2, "t", .DONE, [5], 6, []⟩,
        .badRequest "Cannot move from DONE to TODO. Allowed: none (terminal)") := by
  have h := move_invalid_transition_rejected ⟨1, 2, "t", .DONE, [5], 6, []⟩
    ⟨6, 1, "MEMBER", []⟩ .TODO none "Bob" 99 rfl (by decide)
  exact h.1

/-- Claim C5: with a transition found in the table, a gated transition is
authorized exactly for Owner or a holder of its required permission, an
ungated standard move exactly for Owner, a TASK_VIEW_ALL holder, or a
TASK_MOVE_OWN holder who is creator or assignee; every unauthorized move
is rejected as Forbidden; the ungated rows of the table are exactly
TODO→DOING, DOING→READY_FOR_REVIEW and REVISION→DOING. -/
theorem move_authorization (task : Task) (user : UserCtx)
    (targetStatus : TaskStatus) (note : Option String) (actorName : String)
    (now : Nat) (tr : Transition)
    (horg : task.organizationId = user.organizationId)
    (hfind : (TRANSITIONS task.status).find?
      (fun t => t.to_ == targetStatus) = some tr) :
    (((moveTask task user targetStatus note actorName now).2).isOk = true ↔
      (match tr.permission with
       | some p => user.role = "OWNER" ∨ p ∈ user.permissions
       | none => user.role = "OWNER" ∨ "TASK_VIEW_ALL" ∈ user.permissions ∨
           ("TASK_MOVE_OWN" ∈ user.permissions ∧
             (user.id ∈ task.assignedTo ∨ task.createdBy = user.id)))) ∧
    (((moveTask task user targetStatus note actorName now).2).isOk = false →
      ∃ m, (moveTask task user targetStatus note actorName now).2 =
        .forbidden m) ∧
    (∀ s : TaskStatus, ∀ t2 ∈ TRANSITIONS s,
      (t2.permission = none ↔
        (s = .TODO ∧ t2.to_ = .DOING) ∨
        (s = .DOING ∧ t2.to_ = .READY_FOR_REVIEW) ∨
        (s = .REVISION ∧ t2.to_ = .DOING))) := by
  refine ⟨?_, ?_, ?_⟩
  · cases hperm : tr.permission with
    | some p =>
        simp [moveTask, horg, hfind, hperm]
        split_ifs with hp
        · simp [applyMoveTask, MoveResp.isOk, hp]
        · simp [MoveResp.isOk, hp]
    | none =>
        simp [moveTask, horg, hfind, hperm]
        split_ifs with h1 h2
        · simp only [applyMoveTask, MoveResp.isOk, true_iff]
          tauto
        · simp only [MoveResp.isOk, Bool.false_eq_true, false_iff]
          tauto
        · simp only [applyMoveTask, MoveResp.isOk, true_iff]
          tauto
  · cases hperm : tr.permission with
    | some p =>
        simp [moveTask, horg, hfind, hperm]
        split_ifs with hp
        · simp [applyMoveTask, MoveResp.isOk]
        · simp [MoveResp.isOk]
    | none =>
        simp [moveTask, horg, hfind, hperm]
        split_ifs with h1 h2
        · simp [applyMoveTask, MoveResp.isOk]
        · simp [MoveResp.isOk]
        · simp [applyMoveTask, MoveResp.isOk]
  · intro s t2 ht2
    cases s <;> simp [TRANSITIONS] at ht2 <;>
      first
        | (rcases ht2 with h | h <;> subst h <;> simp)
        | (subst ht2; simp)

/-- Witness for claim C5: a member holding only TASK_MOVE_OWN who is an
assignee may apply the ungated TODO→DOING move. -/
theorem move_authorization_witness :
    ((moveTask ⟨1, 2, "t", .TODO, [6], 9, []⟩ ⟨6, 1, "MEMBER",
      ["TASK_MOVE_OWN"]⟩ .DOING none "Bob" 99).2).isOk = true := by
  have h := move_authorization ⟨1, 2, "t", .TODO, [6], 9, []⟩
    ⟨6, 1, "MEMBER", ["TASK_MOVE_OWN"]⟩ .DOING none "Bob" 99
    ⟨.DOING, none, "Start"⟩ rfl (by decide)
  exact h.1.mpr (by decide)

/-- Claim C6: every successful move yields the task with the requested
status and exactly one appended history record whose fields are the
pre-transition status, the target status, the actor id, the resolved
actor name, the trimmed note (empty when absent) and the timestamp. -/
theorem move_success_appends_history (task : Task) (user : UserCtx)
    (targetStatus : TaskStatus) (note : Option String) (actorName : String)
    (now : Nat)
    (h : ((moveTask task user targetStatus note actorName now).2).isOk =
      true) :
    (moveTask task user targetStatus note actorName now).1 =
      { task with
          status := targetStatus,
          history := task.history ++
            [⟨task.status, targetStatus, user.id, actorName,
              noteOrEmpty note, now⟩] } ∧
    noteOrEmpty none = "" := by
  refine ⟨?_, rfl⟩
  revert h
  by_cases horg : task.organizationId ≠ user.organizationId
  · simp [moveTask, horg, MoveResp.isOk]
  · cases hfind : (TRANSITIONS task.status).find?
        (fun t => t.to_ == targetStatus) with
    | none => simp [moveTask, horg, hfind, MoveResp.isOk]
    | some tr =>
        cases hperm : tr.permission with
        | some p =>
            simp [moveTask, horg, hfind, hperm]
            split_ifs with hp
            · simp [applyMoveTask]
            · simp [MoveResp.isOk]
        | none =>
            simp [moveTask, horg, hfind, hperm]
            split_ifs with h1 h2
            · simp [applyMoveTask]
            · simp [MoveResp.isOk]
            · simp [applyMoveTask]

/-- Witness for claim C6: the owner moving a TODO task to DOING appends
the single record TODO→DOING. -/
theorem move_success_appends_history_witness :
    (moveTask ⟨1, 2, "t", .TODO, [], 9, []⟩ ⟨1, 1, "OWNER", []⟩ .DOING
        none "Boss" 99).1 =
      { organizationId := 1, clientId := 2, title := "t",
        status := TaskStatus.DOING, assignedTo := [], createdBy := 9,
        history := [⟨.TODO, .DOING, 1, "Boss", "", 99⟩] } := by
  have h := move_success_appends_history ⟨1, 2, "t", .TODO, [], 9, []⟩
    ⟨1, 1, "OWNER", []⟩ .DOING none "Boss" 99 (by decide)
  exact h.1

/-- Claim C2: both permission gates always authorize an Owner identity
regardless of the required permissions; a non-Owner passes the any-of
gate exactly when some required permission is held and the all-of gate
exactly when every required permission is held, and otherwise the gates
signal the Forbidden outcome. -/
theorem permission_gates (required : List String) (u : UserCtx) :
    (u.role = "OWNER" →
      requirePermission required (some u) = .allowed ∧
      requireAllPermissions required (some u) = .allowed) ∧
    (u.role ≠ "OWNER" →
      ((requirePermission required (some u) = .allowed) ↔
        ∃ p ∈ required, p ∈ u.permissions) ∧
      ((requireAllPermissions required (some u) = .allowed) ↔
        ∀ p ∈ required, p ∈ u.permissions) ∧
      (requirePermission required (some u) ≠ .allowed →
        requirePermission required (some u) =
          .forbidden "You do not have permission to perform this action") ∧
      (requireAllPermissions required (some u) ≠ .allowed →
        requireAllPermissions required (some u) =
          .forbidden "You do not have permission to perform this action")) := by
  constructor
  · intro howner
    constructor <;> simp [requirePermission, requireAllPermissions, howner]
  · intro hnot
    have hrole : (u.role == "OWNER") = false := by
      simpa using hnot
    refine ⟨?_, ?_, ?_, ?_⟩
    · simp [requirePermission, hrole, List.any_eq_true, List.elem_iff]
    · simp [requireAllPermissions, hrole, List.all_eq_true, List.elem_iff]
    · simp only [requirePermission, hrole, Bool.false_eq_true, if_false]
      by_cases hany : (required.any
          (fun p => u.permissions.contains p)) = true
      · simp [hany]
      · simp [hany]
    · simp only [requireAllPermissions, hrole, Bool.false_eq_true, if_false]
      by_cases hall : (required.all
          (fun p => u.permissions.contains p)) = true
      · simp [hall]
      · simp [hall]

/-- Witness for claim C2: an Owner with an empty permission set passes
both gates for an arbitrary requirement list, and a non-Owner lacking the
permission is rejected with Forbidden by the any-of gate. -/
theorem permission_gates_witness :
    requirePermission ["TASK_CREATE"] (some ⟨1, 1, "OWNER", []⟩) =
      .allowed ∧
    requireAllPermissions ["TASK_CREATE", "PAGE_TASKS"]
      (some ⟨1, 1, "OWNER", []⟩) = .allowed ∧
    requirePermission ["TASK_CREATE"] (some ⟨2, 1, "MEMBER", []⟩) =
      .forbidden "You do not have permission to perform this action" := by
  refine ⟨(permission_gates ["TASK_CREATE"] ⟨1, 1, "OWNER", []⟩).1 rfl |>.1,
    (permission_gates ["TASK_CREATE", "PAGE_TASKS"]
      ⟨1, 1, "OWNER", []⟩).1 rfl |>.2, ?_⟩
  exact ((permission_gates ["TASK_CREATE"]
    ⟨2, 1, "MEMBER", []⟩).2 (by decide)).2.2.1 (by decide)

/-! ## Client portal decision, principal resolver, session guard -/

/-- Claim C8: a DONE decision submitted by the owning Client on a task in
SENT_TO_CLIENT sets the task to DONE and appends a history entry from
SENT_TO_CLIENT to DONE, and an IN_PROGRESS requirement whose only linked
work item is that task derives COMPLETED in the subsequent sync. -/
theorem client_done_decision (task : Task) (user : ClientCtx)
    (note : Option String) (now : Nat) (r : Requirement) (tid : Nat)
    (tasks : Nat → Option TaskStatus)
    (horg : task.organizationId = user.organizationId)
    (hcl : task.clientId = user.clientId)
    (hst : task.status = .SENT_TO_CLIENT) :
    (respondToTask task user "DONE" note now).1.status = .DONE ∧
    (∃ nm nt, (respondToTask task user "DONE" note now).1.history =
      task.history ++
        [⟨.SENT_TO_CLIENT, .DONE, user.clientId, nm, nt, now⟩]) ∧
    (respondToTask task user "DONE" note now).2 = .ok "Task approved" ∧
    (r.status = .IN_PROGRESS → r.linkedTaskIds = [tid] →
      tasks tid = some ((respondToTask task user "DONE" note now).1.status) →
      (syncRequirement r tasks).1.status = .COMPLETED) := by
  have hred : (respondToTask task user "DONE" note now).1.status = .DONE := by
    simp [respondToTask, horg, hcl, hst]
  refine ⟨hred, ?_, ?_, ?_⟩
  · refine ⟨match user.name with
      | some s => if s = "" then "Client" else s
      | none => "Client",
      match noteTrim note with
      | some s => if s = "" then "Client approved" else s
      | none => "Client approved", ?_⟩
    simp [respondToTask, horg, hcl, hst]
  · simp [respondToTask, horg, hcl, hst]
  · intro h1 h2 h3
    rw [hred] at h3
    have hlink : r.linkedTaskIds.filterMap tasks = [TaskStatus.DONE] := by
      rw [h2]
      simp [h3]
    simp [syncRequirement, syncCore, h1, hlink, inFlight]

/-- Witness for claim C8 at a concrete task, client and requirement. -/
theorem client_done_decision_witness :
    (respondToTask ⟨1, 2, "t", .SENT_TO_CLIENT, [5], 6, []⟩ ⟨1, 2, some "Acme"⟩
        "DONE" none 42).1.status = .DONE ∧
    (syncRequirement ⟨1, 2, "r", "HIGH", .IN_PROGRESS, [7], []⟩
      (fun n => if n = 7 then
        some (respondToTask ⟨1, 2, "t", .SENT_TO_CLIENT, [5], 6, []⟩
          ⟨1, 2, some "Acme"⟩ "DONE" none 42).1.status
        else none)).1.status = .COMPLETED := by
  have h := client_done_decision ⟨1, 2, "t", .SENT_TO_CLIENT, [5], 6, []⟩
    ⟨1, 2, some "Acme"⟩ none 42 ⟨1, 2, "r", "HIGH", .IN_PROGRESS, [7], []⟩ 7
    (fun n => if n = 7 then
      some (respondToTask ⟨1, 2, "t", .SENT_TO_CLIENT, [5], 6, []⟩
        ⟨1, 2, some "Acme"⟩ "DONE" none 42).1.status
      else none)
    rfl rfl rfl
  exact ⟨h.1, h.2.2.2 rfl rfl rfl⟩

/-- Claim C9, amended to the source behavior: a decoded body without the
principal-kind discriminator is resolved by trying Organization first and
then User, returning the first match and NotFound when both miss — the
Client collection is never consulted on this path. -/
theorem resolveEntity_legacy_fallback (d : Decoded) (env : Env)
    (h : d.userType = none) :
    (∀ o, env.orgs d.id = some o →
      resolveEntity d env = some (o, "organization")) ∧
    (env.orgs d.id = none → ∀ u, env.users d.id = some u →
      resolveEntity d env = some (u, "user")) ∧
    (env.orgs d.id = none → env.users d.id = none →
      resolveEntity d env = none) := by
  refine ⟨?_, ?_, ?_⟩
  · intro o ho
    simp [resolveEntity, h, ho]
  · intro ho u hu
    simp [resolveEntity, h, ho, hu]
  · intro ho hu
    simp [resolveEntity, h, ho, hu]

/-- Witness for the amended claim C9: a legacy token resolving to a User
record when no Organization matches. -/
theorem resolveEntity_legacy_fallback_witness :
    resolveEntity ⟨2, none⟩
      ⟨fun _ => none,
       fun n => if n = 2 then some ⟨some 3, some 3, none, none, false⟩
         else none,
       fun _ => none⟩ =
      some (⟨some 3, some 3, none, none, false⟩, "user") := by
  have h := resolveEntity_legacy_fallback ⟨2, none⟩
    ⟨fun _ => none,
     fun n => if n = 2 then some ⟨some 3, some 3, none, none, false⟩
       else none,
     fun _ => none⟩ rfl
  exact h.2.1 rfl ⟨some 3, some 3, none, none, false⟩ rfl

/-- Counterexample to claim C9 as stated: an identifier stored only in
the Client collection is not resolved by the legacy fallback — the
resolver returns NotFound instead of the Client, because the source
only tries Organization and then User. -/
theorem legacy_client_token_not_resolved_cex :
    resolveEntity ⟨1, none⟩
      ⟨fun _ => none, fun _ => none,
       fun n => if n = 1 then some ⟨some 5, some 5, none, none, false⟩
         else none⟩ = none ∧
    (⟨fun _ => none, fun _ => none,
      fun n => if n = 1 then some ⟨some 5, some 5, none, none, false⟩
        else none⟩ : Env).clients 1 =
      some ⟨some 5, some 5, none, none, false⟩ := by
  exact ⟨rfl, rfl⟩

/-- Claim C3, amended to the source behavior: a presented refresh token
that differs from the stored one is rejected with the distinct
SessionInvalidated outcome, cookies cleared, whenever a verifying access
token accompanies it; without a valid access token the same mismatch is
rejected on the refresh path with the generic refresh-token-expired
outcome, also clearing cookies. -/
theorem session_guard_mismatch (env : Env) (at_ rt : Tok) (e : Entity)
    (ty : String) (pub priv : Nat) (now fresh : Nat) :
    (resolveEntity ⟨at_.id, at_.userType⟩ env = some (e, ty) →
     e.publicKey = some pub →
     verifyTok at_ pub now = true →
     e.refreshToken ≠ some rt →
     authenticate env (some at_) (some rt) now fresh =
       ⟨.sessionInvalidated, true, none⟩) ∧
    (resolveEntity ⟨rt.id, rt.userType⟩ env = some (e, ty) →
     e.publicKey = some pub →
     e.privateKey = some priv →
     verifyTok rt pub now = true →
     e.refreshToken ≠ some rt →
     authenticate env none (some rt) now fresh =
       ⟨.refreshExpired, true, none⟩) := by
  constructor
  · intro hres hpub hver hmis
    simp [authenticate, hres, hpub, hver, hmis]
  · intro hres hpub hpriv hver hmis
    simp [authenticate, hres, hpub, hpriv, hver, hmis]

/-- Witness for the amended claim C3: a concrete principal with a rotated
stored refresh token; presenting the stale token beside a valid access
token yields SessionInvalidated, presenting it alone yields the generic
refresh-expired rejection. -/
theorem session_guard_mismatch_witness :
    authenticate
      ⟨fun n => if n = 1 then
          some ⟨some 5, some 5, some ⟨1, none, 5, 100, 1⟩, some 100, false⟩
        else none,
       fun _ => none, fun _ => none⟩
      (some ⟨1, none, 5, 50, 9⟩) (some ⟨1, none, 5, 100, 0⟩) 10 77 =
      ⟨.sessionInvalidated, true, none⟩ ∧
    authenticate
      ⟨fun n => if n = 1 then
          some ⟨some 5, some 5, some ⟨1, none, 5, 100, 1⟩, some 100, false⟩
        else none,
       fun _ => none, fun _ => none⟩
      none (some ⟨1, none, 5, 100, 0⟩) 10 77 =
      ⟨.refreshExpired, true, none⟩ := by
  have h := session_guard_mismatch
    ⟨fun n => if n = 1 then
        some ⟨some 5, some 5, some ⟨1, none, 5, 100, 1⟩, some 100, false⟩
      else none,
     fun _ => none, fun _ => none⟩
    ⟨1, none, 5, 50, 9⟩ ⟨1, none, 5, 100, 0⟩
    ⟨some 5, some 5, some ⟨1, none, 5, 100, 1⟩, some 100, false⟩
    "organization" 5 5 10 77
  exact ⟨h.1 rfl rfl (by decide) (by decide),
    h.2 rfl rfl rfl (by decide) (by decide)⟩

/-- Counterexample to claim C3 as stated: the same stale refresh token
(differing from the stored one) presented without an access token is
rejected with the generic refresh-token-expired outcome, not the
distinct SessionInvalidated outcome. -/
theorem refresh_mismatch_not_session_invalidated_cex :
    authenticate
      ⟨fun n => if n = 1 then
          some ⟨some 5, some 5, some ⟨1, none, 5, 100, 1⟩, some 100, false⟩
        else none,
       fun _ => none, fun _ => none⟩
      none (some ⟨1, none, 5, 100, 0⟩) 10 77 =
      ⟨.refreshExpired, true, none⟩ ∧
    (some (⟨1, none, 5, 100, 0⟩ : Tok) ≠ some (⟨1, none, 5, 100, 1⟩ : Tok)) ∧
    AuthResult.refreshExpired ≠ AuthResult.sessionInvalidated := by
  refine ⟨by decide, by decide, by decide⟩

end Orbit
